import Mathlib

/-!
Shallow embedding of `src/esp/main.py` (MicroPython plant-watering agent)
for verification of its specification.

Conventions of the embedding:
* The module-level mutable globals of `main.py` (lines 27-30) become the
  `State` record; each Python function becomes a pure Lean function from
  the pre-state (plus explicit inputs standing for the external world:
  sensor readings, WLAN link status, HTTP outcomes) to the post-state.
* Network requests and pin writes performed by a function are returned as
  an explicit `Effect` trace.
* Machine arithmetic: all quantities are small nonnegative integers
  (12-bit ADC readings, percentages), modelled as `Nat`.  Python's
  `int((a * 100) / b)` on positive ints truncates toward zero, which for
  these magnitudes coincides with `Nat` floor division (the float quotient
  is far more than one ulp away from the nearest integer unless exact).
* Python scoping: a name assigned anywhere in a function body without a
  `global` declaration is local to the whole function; reading it before
  the assignment raises `UnboundLocalError` (`NameError` in MicroPython).
  This matters for `send_sensor_data`, see below.
-/

namespace FarmerEsp

/-- Calibration constants, `main.py` lines 23-24. -/
def DRY_VALUE : Nat := 4095

/-- Calibration constants, `main.py` lines 23-24. -/
def WET_VALUE : Nat := 1500

/-- The raw-to-percentage conversion of `read_soil_moisture`, `main.py`
lines 80-87, with the two module constants `WET_VALUE`/`DRY_VALUE`
generalized to parameters `wet`/`dry`.  Branch order follows the source:
the wet check comes first, then the dry check, then the interpolation,
then the defensive clamp `max(0, min(100, m))`. -/
def moistureRawPct (wet dry raw : Nat) : Nat :=
  if raw ≤ wet then 100
  else if raw ≥ dry then 0
  else 100 - (raw - wet) * 100 / (dry - wet)

/-- The defensive second pass `max(0, min(100, ...))` of `main.py` line 87
applied on top of the branch computation of lines 80-85. -/
def moistureMap (wet dry raw : Nat) : Nat :=
  max 0 (min 100 (moistureRawPct wet dry raw))

/-- The module-level mutable globals of `main.py`, lines 27-30, plus the
physical relay output pin driven by `relay.value(...)`. -/
structure State where
  relay_state : Bool
  last_moisture : Nat
  wifi_connected : Bool
  server_available : Bool
  relay_pin : Bool
deriving DecidableEq, Repr

/-- Initial values of the globals (`main.py` lines 27-30); the relay output
pin starts low. -/
def initState : State :=
  { relay_state := false
    last_moisture := 0
    wifi_connected := false
    server_available := false
    relay_pin := false }

/-- `read_soil_moisture` (`main.py` lines 68-95) with the calibration
constants as parameters.  The external input is the outcome of the
five-sample ADC read loop: `Except.ok rs` is the list of raw samples
obtained (the code takes 5), `Except.error ()` stands for the sensor
collaborator raising anywhere inside the `try` block.  On success the
average is the floor of sum over count, the percentage is stored in
`last_moisture` and returned; on failure the `except` handler returns the
current `last_moisture` and the state is untouched. -/
def read_soil_moisture_cal (wet dry : Nat) (s : State)
    (readings : Except Unit (List Nat)) : State × Nat :=
  match readings with
  | .ok rs =>
      let raw := rs.sum / rs.length
      let m := moistureMap wet dry raw
      ({ s with last_moisture := m }, m)
  | .error _ => (s, s.last_moisture)

/-- `read_soil_moisture` as shipped: calibration fixed to the module
constants. -/
def read_soil_moisture (s : State) (readings : Except Unit (List Nat)) :
    State × Nat :=
  read_soil_moisture_cal WET_VALUE DRY_VALUE s readings

/-- Externally visible side effects of the relay code: a write to the
physical relay pin, or an HTTP POST to `/relay/set` (the notification in
`update_relay_state`, `main.py` lines 162-174; issuing the request counts
as a network call whether or not the server answers). -/
inductive Effect where
  | actuate (isOn : Bool)
  | postRelaySet (state : Bool) (humidity : Nat)
deriving DecidableEq, Repr

/-- Network effects among `Effect`. -/
def Effect.isNetwork : Effect → Bool
  | .actuate _ => false
  | .postRelaySet _ _ => true

/-- Physical actuations among `Effect`. -/
def Effect.isActuation : Effect → Bool
  | .actuate _ => true
  | .postRelaySet _ _ => false

/-- `update_relay_state` (`main.py` lines 155-177).  If the requested state
differs from `relay_state`, the global flag and the pin are updated, and —
whenever `wifi_connected and server_available` — the function reads the
sensor and POSTs the change to `/relay/set`.  A failure of that POST is
caught and changes nothing, so the trace records the attempt only.
Returns the post-state, the effect trace, and the Python return value. -/
def update_relay_state (s : State) (new_state : Bool)
    (readings : Except Unit (List Nat)) : State × List Effect × Bool :=
  if s.relay_state ≠ new_state then
    let s1 := { s with relay_state := new_state, relay_pin := new_state }
    if s1.wifi_connected && s1.server_available then
      let rm := read_soil_moisture s1 readings
      (rm.1, [Effect.actuate new_state, Effect.postRelaySet new_state rm.2], true)
    else
      (s1, [Effect.actuate new_state], true)
  else
    (s, [], false)

/-- Outcome of the GET `/relay/status` reconciliation poll as seen by
`get_relay_status`: the request raised (timeout, transport error,
unparseable body — all land in the `except`), or returned a non-200
status, or returned 200 with a JSON object in which the `relayState`
field is present (`some b`) or missing (`none`). -/
inductive PollOutcome where
  | fail
  | badStatus
  | ok (relayState : Option Bool)
deriving DecidableEq, Repr

/-- `get_relay_status` (`main.py` lines 179-195).  Returns `none` when not
connected or on any failure; on a 200 response it returns
`data.get('relayState', False)`, i.e. a missing field defaults to
`False`. -/
def get_relay_status (s : State) (o : PollOutcome) : Option Bool :=
  if !s.wifi_connected then none
  else
    match o with
    | .fail => none
    | .badStatus => none
    | .ok rs => some (rs.getD false)

/-- `sync_relay_state` (`main.py` lines 208-213): the periodic
reconciliation task.  When both availability flags are set it polls the
server and, if the returned state is not `None` and differs from the
local flag, applies it through `update_relay_state`. -/
def sync_relay_state (s : State) (o : PollOutcome)
    (readings : Except Unit (List Nat)) : State × List Effect :=
  if s.wifi_connected && s.server_available then
    match get_relay_status s o with
    | some server_state =>
        if server_state ≠ s.relay_state then
          let u := update_relay_state s server_state readings
          (u.1, u.2.1)
        else (s, [])
    | none => (s, [])
  else (s, [])

/-- Outcome of the GET `/health` probe: 200, non-200, or an exception. -/
inductive ProbeOutcome where
  | ok200
  | badStatus
  | exn
deriving DecidableEq, Repr

/-- `check_server_connection` (`main.py` lines 97-113).  Returns early
(without touching `server_available`) when WiFi is down; otherwise sets
`server_available` to `true` exactly on a 200 response and to `false` on
a non-200 status or an exception. -/
def check_server_connection (s : State) (o : ProbeOutcome) : State × Bool :=
  if !s.wifi_connected then (s, false)
  else
    match o with
    | .ok200 => ({ s with server_available := true }, true)
    | .badStatus => ({ s with server_available := false }, false)
    | .exn => ({ s with server_available := false }, false)

/-- `connect_wifi` (`main.py` lines 39-66).  External inputs: whether the
WLAN interface reports itself already connected on entry, and whether the
association attempt succeeds within the 20-tick timeout.  Note that when
the interface is already connected the function returns `True` WITHOUT
setting `wifi_connected` (the early `return True` on line 66 bypasses the
assignment). -/
def connect_wifi (s : State) (alreadyConnected connectOk : Bool) :
    State × Bool :=
  if !alreadyConnected then
    if connectOk then ({ s with wifi_connected := true }, true)
    else ({ s with wifi_connected := false }, false)
  else (s, true)

/-- `check_connections` (`main.py` lines 215-227): the periodic
connectivity task.  If the WLAN link is down it clears both flags and
re-runs `connect_wifi`; otherwise, if WiFi is flagged up but the server
is flagged down, it re-probes the server. -/
def check_connections (s : State) (wlanConnected : Bool)
    (alreadyConnected connectOk : Bool) (probe : ProbeOutcome) : State :=
  if !wlanConnected then
    let s1 := { s with wifi_connected := false, server_available := false }
    (connect_wifi s1 alreadyConnected connectOk).1
  else if s.wifi_connected && !s.server_available then
    (check_server_connection s probe).1
  else s

/-- Python runtime errors relevant to this program. -/
inductive PyError where
  | unboundLocal (name : String)
deriving DecidableEq, Repr

/-- Parameter names of `send_sensor_data` (`main.py` line 115). -/
def sendSensorDataParams : List String :=
  ["moisture", "relay_state"]

/-- Names bound by assignment in the body of `send_sensor_data`
(`main.py` lines 115-153): `url` and `data` on lines 121-125, `response`
on line 128, `response_data` on line 136, `e` by the except clause on
line 150, and — crucially — `server_available` on line 152. -/
def sendSensorDataAssignedNames : List String :=
  ["url", "data", "response", "response_data", "e", "server_available"]

/-- `global` declarations in `send_sensor_data`: there are none (contrast
`check_server_connection` line 98 and `check_connections` line 216, which
do declare `global server_available`). -/
def sendSensorDataGlobalDecls : List String := []

/-- Python name resolution: a name is function-local iff it is a parameter
or is assigned somewhere in the body, and is not declared `global`. -/
def pyIsLocal (params assigned globals : List String) (n : String) : Bool :=
  (params.contains n || assigned.contains n) && !(globals.contains n)

/-- `send_sensor_data` (`main.py` lines 115-153).  Line 116 is
`if not wifi_connected or not server_available:`.  `wifi_connected` is a
global (never assigned in this function), so when it is `False` the `or`
short-circuits and the function returns `False` ("skipping data send").
When `wifi_connected` is `True`, the second disjunct reads
`server_available`; because line 152 assigns `server_available` without a
`global` declaration, that name is local to the whole function and is
unbound at line 116, so the read raises (`UnboundLocalError` in CPython,
`NameError` in MicroPython).  Lines 120-153 are therefore unreachable
whenever WiFi is up, and the function performs no write to any global on
any path. -/
def send_sensor_data (s : State) : Except PyError (State × Bool) :=
  if !s.wifi_connected then .ok (s, false)
  else if pyIsLocal sendSensorDataParams sendSensorDataAssignedNames
      sendSensorDataGlobalDecls "server_available" then
    .error (.unboundLocal "server_available")
  else
    .ok (s, false)

/-- `sensor_reading_task` (`main.py` lines 197-206): the periodic telemetry
task.  When both flags are set it reads the sensor (updating
`last_moisture`) and calls `send_sensor_data`; an exception escaping that
call aborts the rest of the callback, leaving the globals as they were at
the raise point.  Returns the post-state of the globals together with the
escaped exception, if any. -/
def sensor_reading_task (s : State) (readings : Except Unit (List Nat)) :
    State × Option PyError :=
  if s.wifi_connected && s.server_available then
    let rm := read_soil_moisture s readings
    match send_sensor_data rm.1 with
    | .error e => (rm.1, some e)
    | .ok p => (p.1, none)
  else (s, none)

/-- The error kind the specification prescribes for a degenerate
calibration (`dryPoint ≤ wetPoint`). -/
inductive ConfigurationError where
  | degenerateCalibration
deriving DecidableEq, Repr

/-- The startup portion of `main` (`main.py` lines 257-284), parameterized
over the calibration constants `dry`/`wet` so that validation of them can
be stated.  The code performs, in order: `update_relay_state(False)`,
`connect_wifi()`, and — only if that returned `True` —
`check_server_connection()`; it then installs the three periodic timers
and enters the loop.  No step inspects `dry` or `wet`: the source contains
no calibration validation and no `ConfigurationError`, so the result is
always `Except.ok`. -/
def main_startup (dry wet : Nat) (s : State)
    (alreadyConnected connectOk : Bool) (probe : ProbeOutcome)
    (readings : Except Unit (List Nat)) :
    Except ConfigurationError State :=
  let u := update_relay_state s false readings
  let c := connect_wifi u.1 alreadyConnected connectOk
  if c.2 then .ok (check_server_connection c.1 probe).1
  else .ok c.1

/-- How the main loop can exit (`main.py` lines 287-301): a
`KeyboardInterrupt`, or any other exception raised inside the loop body. -/
inductive ExitEvent where
  | keyboardInterrupt
  | otherException
deriving DecidableEq, Repr

/-- The teardown actions of `main` (`main.py` lines 295-301). -/
structure TeardownActions where
  sensor_timer_deinit : Bool
  relay_timer_deinit : Bool
  connection_timer_deinit : Bool
  relay_forced_off : Bool
deriving DecidableEq, Repr

/-- Which teardown actions run on each exit path of the main loop.  The
cleanup block (`main.py` lines 296-301) is the handler of
`except KeyboardInterrupt`; there is no `finally`, so an exit caused by
any other exception propagates without deinitializing the timers or
forcing the relay off. -/
def main_loop_teardown : ExitEvent → TeardownActions
  | .keyboardInterrupt =>
      { sensor_timer_deinit := true
        relay_timer_deinit := true
        connection_timer_deinit := true
        relay_forced_off := true }
  | .otherException =>
      { sensor_timer_deinit := false
        relay_timer_deinit := false
        connection_timer_deinit := false
        relay_forced_off := false }

/-- The states the running program can be in: one of the boot outcomes of
`main_startup` (from the initial globals, with the shipped calibration
constants), closed under the three periodic timer callbacks, each fired
with arbitrary external inputs. -/
inductive Reachable : State → Prop where
  | boot : ∀ (a c : Bool) (p : ProbeOutcome) (r : Except Unit (List Nat))
      (s : State),
      main_startup DRY_VALUE WET_VALUE initState a c p r = .ok s →
      Reachable s
  | sensor : ∀ {s : State} (r : Except Unit (List Nat)),
      Reachable s → Reachable (sensor_reading_task s r).1
  | sync : ∀ {s : State} (o : PollOutcome) (r : Except Unit (List Nat)),
      Reachable s → Reachable (sync_relay_state s o r).1
  | conn : ∀ {s : State} (w a c : Bool) (p : ProbeOutcome),
      Reachable s → Reachable (check_connections s w a c p)

/-- A fixed concrete state with the relay off and both links up, used to
instantiate theorems. -/
def sOffUp : State :=
  { relay_state := false
    last_moisture := 40
    wifi_connected := true
    server_available := true
    relay_pin := false }

/-- A fixed concrete state with the relay on and both links up. -/
def sOnUp : State :=
  { relay_state := true
    last_moisture := 40
    wifi_connected := true
    server_available := true
    relay_pin := true }

/-- A fixed concrete successful five-sample ADC read. -/
def rMid : Except Unit (List Nat) :=
  .ok [2797, 2797, 2797, 2797, 2797]

/-- The state produced by a boot in which the WLAN associates at the first
attempt and the health probe answers 200. -/
def sBoot : State :=
  { relay_state := false
    last_moisture := 0
    wifi_connected := true
    server_available := true
    relay_pin := false }

/-! Helper lemmas about the calibration mapping. -/

/-- The branch computation never exceeds 100. -/
theorem moistureRawPct_le_100 (wet dry raw : Nat) :
    moistureRawPct wet dry raw ≤ 100 := by
  unfold moistureRawPct
  split
  · exact le_refl 100
  · split
    · exact Nat.zero_le 100
    · exact Nat.sub_le 100 _

/-- Wet branch of the mapping. -/
theorem moistureRawPct_of_le_wet (wet dry raw : Nat) (h : raw ≤ wet) :
    moistureRawPct wet dry raw = 100 := by
  unfold moistureRawPct
  rw [if_pos h]

/-- Dry branch of the mapping. -/
theorem moistureRawPct_of_ge_dry (wet dry raw : Nat) (h1 : ¬ raw ≤ wet)
    (h2 : raw ≥ dry) : moistureRawPct wet dry raw = 0 := by
  unfold moistureRawPct
  rw [if_neg h1, if_pos h2]

/-- Interpolation branch of the mapping. -/
theorem moistureRawPct_interior (wet dry raw : Nat) (h1 : ¬ raw ≤ wet)
    (h2 : ¬ raw ≥ dry) :
    moistureRawPct wet dry raw = 100 - (raw - wet) * 100 / (dry - wet) := by
  unfold moistureRawPct
  rw [if_neg h1, if_neg h2]

/-- The branch computation is non-increasing in the raw sample, for any
calibration pair. -/
theorem moistureRawPct_antitone (wet dry : Nat) {r1 r2 : Nat} (h : r1 ≤ r2) :
    moistureRawPct wet dry r2 ≤ moistureRawPct wet dry r1 := by
  by_cases h1 : r1 ≤ wet
  · rw [moistureRawPct_of_le_wet wet dry r1 h1]
    exact moistureRawPct_le_100 wet dry r2
  · have h2w : ¬ r2 ≤ wet := fun hc => h1 (le_trans h hc)
    by_cases h2d : r2 ≥ dry
    · rw [moistureRawPct_of_ge_dry wet dry r2 h2w h2d]
      exact Nat.zero_le _
    · have h1d : ¬ r1 ≥ dry := fun hc => h2d (le_trans hc h)
      rw [moistureRawPct_interior wet dry r1 h1 h1d,
          moistureRawPct_interior wet dry r2 h2w h2d]
      apply Nat.sub_le_sub_left
      apply Nat.div_le_div_right
      exact Nat.mul_le_mul_right 100 (Nat.sub_le_sub_right h wet)

/-- The clamped mapping agrees with the branch computation (the branch
value is already in range). -/
theorem moistureMap_eq_rawPct (wet dry raw : Nat) :
    moistureMap wet dry raw = moistureRawPct wet dry raw := by
  unfold moistureMap
  rw [Nat.zero_max, Nat.min_eq_right (moistureRawPct_le_100 wet dry raw)]

/-- The full mapping is non-increasing in the raw sample. -/
theorem moistureMap_antitone (wet dry : Nat) {r1 r2 : Nat} (h : r1 ≤ r2) :
    moistureMap wet dry r2 ≤ moistureMap wet dry r1 := by
  rw [moistureMap_eq_rawPct, moistureMap_eq_rawPct]
  exact moistureRawPct_antitone wet dry h

/-! Helper lemmas about the connectivity flags. -/

/-- Reading the sensor changes only `last_moisture`. -/
theorem read_soil_moisture_cal_fst (wet dry : Nat) (s : State)
    (r : Except Unit (List Nat)) :
    (read_soil_moisture_cal wet dry s r).1 =
      { s with last_moisture := (read_soil_moisture_cal wet dry s r).2 } := by
  cases r <;> rfl

/-- `update_relay_state` never writes the two availability flags. -/
theorem update_relay_state_flags (s : State) (b : Bool)
    (r : Except Unit (List Nat)) :
    (update_relay_state s b r).1.wifi_connected = s.wifi_connected ∧
    (update_relay_state s b r).1.server_available = s.server_available := by
  cases r <;> cases hb : s.relay_state <;> cases b <;>
    cases hw : s.wifi_connected <;> cases hs : s.server_available <;>
      simp [update_relay_state, read_soil_moisture, read_soil_moisture_cal,
        hb, hw, hs]

/-- The reconciliation task never writes the two availability flags. -/
theorem sync_relay_state_flags (s : State) (o : PollOutcome)
    (r : Except Unit (List Nat)) :
    (sync_relay_state s o r).1.wifi_connected = s.wifi_connected ∧
    (sync_relay_state s o r).1.server_available = s.server_available := by
  unfold sync_relay_state
  split
  · split
    · split
      · exact update_relay_state_flags s _ r
      · exact ⟨rfl, rfl⟩
    · exact ⟨rfl, rfl⟩
  · exact ⟨rfl, rfl⟩

/-- What `send_sensor_data` evaluates to, by WiFi flag. -/
theorem send_sensor_data_cases (s : State) :
    send_sensor_data s =
      if !s.wifi_connected then .ok (s, false)
      else .error (.unboundLocal "server_available") := by
  unfold send_sensor_data
  cases hw : s.wifi_connected
  · rfl
  · rfl

/-- The telemetry task never writes the two availability flags (when both
flags are up it crashes inside `send_sensor_data` after the sensor read;
otherwise it is a no-op). -/
theorem sensor_reading_task_flags (s : State) (r : Except Unit (List Nat)) :
    (sensor_reading_task s r).1.wifi_connected = s.wifi_connected ∧
    (sensor_reading_task s r).1.server_available = s.server_available := by
  unfold sensor_reading_task
  cases r <;> cases hw : s.wifi_connected <;> cases hs : s.server_available <;>
    simp [send_sensor_data_cases, read_soil_moisture, read_soil_moisture_cal,
      hw, hs]

/-- The connectivity task preserves the flag implication. -/
theorem check_connections_inv (s : State) (w a c : Bool) (p : ProbeOutcome)
    (h : s.server_available = true → s.wifi_connected = true) :
    (check_connections s w a c p).server_available = true →
    (check_connections s w a c p).wifi_connected = true := by
  unfold check_connections connect_wifi check_server_connection
  cases w <;> cases a <;> cases c <;> cases hw : s.wifi_connected <;>
    cases hs : s.server_available <;> cases p <;> simp_all

/-- Every boot outcome satisfies the flag implication. -/
theorem main_startup_inv (dry wet : Nat) (a c : Bool) (p : ProbeOutcome)
    (r : Except Unit (List Nat)) (s : State)
    (h : main_startup dry wet initState a c p r = .ok s) :
    s.server_available = true → s.wifi_connected = true := by
  unfold main_startup update_relay_state connect_wifi check_server_connection
    initState at h
  cases a <;> cases c <;> cases p <;> simp_all <;> subst h <;> simp

/-! Claim theorems. -/

/-- C1 counterexample: with WiFi and the server available, applying a
remote-origin relay change (the reconciliation poll returning
`relayState: true` with the relay off) produces a non-empty list of
network calls — the code POSTs the change back to `/relay/set`, contrary
to the claim that remote-origin changes issue no network notification. -/
theorem c1_remote_change_notifies_counterexample :
    (sync_relay_state sOffUp (.ok (some true)) rMid).2.filter
      Effect.isNetwork ≠ [] := by decide

/-- C1 (amended): a remote-origin relay change does notify the server:
starting from relay off with WiFi and server available, applying the
server state `true` produces exactly one physical actuation and exactly
one network call (a POST to `/relay/set`), and a repeated application is
a no-op (no further actuation and no further network call). -/
theorem c1_amended_remote_apply (s : State) (r : Except Unit (List Nat))
    (hoff : s.relay_state = false) (hw : s.wifi_connected = true)
    (hs : s.server_available = true) :
    (sync_relay_state s (.ok (some true)) r).2.countP Effect.isActuation = 1 ∧
    (sync_relay_state s (.ok (some true)) r).2.countP Effect.isNetwork = 1 ∧
    (sync_relay_state (sync_relay_state s (.ok (some true)) r).1
        (.ok (some true)) r).2 = [] := by
  cases r <;>
    simp [sync_relay_state, get_relay_status, update_relay_state,
      read_soil_moisture, read_soil_moisture_cal, hoff, hw, hs,
      Effect.isActuation, Effect.isNetwork]

/-- C1 witness: the amended theorem instantiated at a concrete off state
with both links up and a concrete read. -/
theorem c1_amended_remote_apply_witness :
    sOffUp.relay_state = false ∧
    (sync_relay_state sOffUp (.ok (some true)) rMid).2.countP
      Effect.isNetwork = 1 ∧
    (sync_relay_state (sync_relay_state sOffUp (.ok (some true)) rMid).1
        (.ok (some true)) rMid).2 = [] :=
  have hc := c1_amended_remote_apply sOffUp rMid rfl rfl rfl
  ⟨rfl, hc.2.1, hc.2.2⟩

/-- C2 (code bug): the claim states that a failed telemetry report sets
the global availability flag to false.  In the source,
`send_sensor_data` assigns `server_available` (line 152) without a
`global` declaration, making the name local to the function; the read on
line 116 therefore raises before any request is made whenever WiFi is up,
the global flag is never written, and the telemetry callback aborts with
the exception while the flag stays `true`. -/
theorem c2_send_sensor_data_unbound_local :
    pyIsLocal sendSensorDataParams sendSensorDataAssignedNames
      sendSensorDataGlobalDecls "server_available" = true ∧
    send_sensor_data sOffUp = .error (.unboundLocal "server_available") ∧
    (sensor_reading_task sOffUp rMid).1.server_available = true ∧
    (sensor_reading_task sOffUp rMid).2 =
      some (.unboundLocal "server_available") :=
  ⟨by decide, rfl, rfl, rfl⟩

/-- C3 counterexample: at raw 2797 the mapping returns 51, not the 50 the
claim asserts: `(2797 - 1500) * 100 / (4095 - 1500)` is `129700 / 2595`,
which truncates to 49, and `100 - 49 = 51`. -/
theorem c3_midpoint_counterexample :
    moistureMap WET_VALUE DRY_VALUE 2797 ≠ 50 := by decide

/-- C3 (amended): with wetPoint 1500 and dryPoint 4095 the calibration
mapping returns 0 at raw 4095, 100 at raw 1500, and 51 (not 50) at raw
2797; the sampler agrees on a five-sample read averaging 2797. -/
theorem c3_calibration_scenarios_amended :
    moistureMap WET_VALUE DRY_VALUE 4095 = 0 ∧
    moistureMap WET_VALUE DRY_VALUE 1500 = 100 ∧
    moistureMap WET_VALUE DRY_VALUE 2797 = 51 ∧
    (read_soil_moisture sOffUp rMid).2 = 51 := by decide

/-- C4 counterexample: a 200 reconciliation response missing the
`relayState` field, received while the local relay is on, changes the
local relay state and actuates the relay — it is not treated like a
failed request. -/
theorem c4_missing_field_counterexample :
    (sync_relay_state sOnUp (.ok none) rMid).1.relay_state ≠
      sOnUp.relay_state ∧
    (sync_relay_state sOnUp (.ok none) rMid).2.countP
      Effect.isActuation = 1 := by decide

/-- C4 (amended): a 200 response missing the `relayState` field is treated
as `relayState = false` (the `data.get('relayState', False)` default),
identically to a response that carries `false`; only a failed request or
a non-200 status leaves the local state untouched with no actuation. -/
theorem c4_missing_field_treated_as_false (s : State)
    (r : Except Unit (List Nat)) :
    sync_relay_state s (.ok none) r = sync_relay_state s (.ok (some false)) r ∧
    sync_relay_state s .fail r = (s, []) ∧
    sync_relay_state s .badStatus r = (s, []) := by
  refine ⟨rfl, ?_, ?_⟩ <;>
    cases hw : s.wifi_connected <;> cases hs : s.server_available <;>
      simp [sync_relay_state, get_relay_status, hw, hs]

/-- C5 counterexample: an exit of the main loop caused by an exception
other than `KeyboardInterrupt` runs none of the teardown actions: the
timers stay initialized and the relay is not forced off. -/
theorem c5_abnormal_exit_counterexample :
    (main_loop_teardown .otherException).relay_forced_off = false ∧
    (main_loop_teardown .otherException).sensor_timer_deinit = false := by
  decide

/-- C5 (amended): the teardown (deinitializing the three timers and
forcing the relay off) runs exactly when the main loop exits via
`KeyboardInterrupt`; any other abnormal termination bypasses it, since
the cleanup is an `except KeyboardInterrupt` handler, not a `finally`
block. -/
theorem c5_teardown_only_on_keyboard_interrupt :
    main_loop_teardown .keyboardInterrupt =
      { sensor_timer_deinit := true
        relay_timer_deinit := true
        connection_timer_deinit := true
        relay_forced_off := true } ∧
    main_loop_teardown .otherException =
      { sensor_timer_deinit := false
        relay_timer_deinit := false
        connection_timer_deinit := false
        relay_forced_off := false } := by decide

/-- C6: for wetPoint < dryPoint the calibration mapping is monotonically
non-increasing on [wetPoint, dryPoint] with map(wetPoint) = 100 and
map(dryPoint) = 0, and outside the interval it returns exactly 100
(below wetPoint) or exactly 0 (above dryPoint), never an extrapolated
value. -/
theorem c6_calibration_monotone_clamped (wet dry : Nat) (h : wet < dry) :
    (∀ r1 r2 : Nat, wet ≤ r1 → r1 ≤ r2 → r2 ≤ dry →
        moistureMap wet dry r2 ≤ moistureMap wet dry r1) ∧
    moistureMap wet dry wet = 100 ∧
    moistureMap wet dry dry = 0 ∧
    (∀ r : Nat, r < wet → moistureMap wet dry r = 100) ∧
    (∀ r : Nat, dry < r → moistureMap wet dry r = 0) := by
  refine ⟨fun r1 r2 _ h12 _ => moistureMap_antitone wet dry h12, ?_, ?_, ?_, ?_⟩
  · rw [moistureMap_eq_rawPct, moistureRawPct_of_le_wet wet dry wet (le_refl wet)]
  · rw [moistureMap_eq_rawPct,
      moistureRawPct_of_ge_dry wet dry dry (not_le.mpr h) (le_refl dry)]
  · intro r hr
    rw [moistureMap_eq_rawPct, moistureRawPct_of_le_wet wet dry r (le_of_lt hr)]
  · intro r hr
    rw [moistureMap_eq_rawPct,
      moistureRawPct_of_ge_dry wet dry r (not_le.mpr (lt_trans h hr))
        (le_of_lt hr)]

/-- C6 witness: the shipped calibration pair with two interior points and
both endpoints. -/
theorem c6_calibration_monotone_clamped_witness :
    1500 < 4095 ∧
    moistureMap 1500 4095 3000 ≤ moistureMap 1500 4095 2000 ∧
    moistureMap 1500 4095 1500 = 100 ∧
    moistureMap 1500 4095 4095 = 0 :=
  have hc := c6_calibration_monotone_clamped 1500 4095 (by decide)
  ⟨by decide, hc.1 2000 3000 (by decide) (by decide) (by decide),
    hc.2.1, hc.2.2.1⟩

/-- C7 counterexample: with the degenerate calibration dryPoint =
wetPoint = 1500, startup succeeds without any `ConfigurationError` and
sampling then proceeds, producing a reading — the agent samples under a
degenerate calibration. -/
theorem c7_degenerate_calibration_counterexample :
    main_startup 1500 1500 initState false true .ok200 (.error ()) =
      .ok sBoot ∧
    (read_soil_moisture_cal 1500 1500 sBoot
      (.ok [1400, 1400, 1400, 1400, 1400])).2 = 100 :=
  ⟨rfl, rfl⟩

/-- C7 (amended): the source contains no calibration validation and no
`ConfigurationError`: for any dryPoint ≤ wetPoint startup still succeeds,
and sampling proceeds with the mapper returning only the clamped extremes
(100 when raw ≤ wetPoint, otherwise 0, the interpolation branch being
unreachable). -/
theorem c7_no_startup_validation (dry wet : Nat) (h : dry ≤ wet)
    (s : State) (a c : Bool) (p : ProbeOutcome)
    (r : Except Unit (List Nat)) :
    (∃ s2, main_startup dry wet s a c p r = .ok s2) ∧
    (∀ raw : Nat, moistureMap wet dry raw = 100 ∨
      moistureMap wet dry raw = 0) := by
  constructor
  · unfold main_startup
    dsimp only
    split
    · exact ⟨_, rfl⟩
    · exact ⟨_, rfl⟩
  · intro raw
    by_cases hr : raw ≤ wet
    · exact Or.inl (by
        rw [moistureMap_eq_rawPct, moistureRawPct_of_le_wet wet dry raw hr])
    · exact Or.inr (by
        rw [moistureMap_eq_rawPct,
          moistureRawPct_of_ge_dry wet dry raw hr
            (le_trans h (le_of_lt (not_le.mp hr)))])

/-- C7 witness: the amended theorem instantiated at the degenerate pair
1500/1500 from the initial state. -/
theorem c7_no_startup_validation_witness :
    (1500 : Nat) ≤ 1500 ∧
    (∃ s2, main_startup 1500 1500 initState false true .ok200
      (.error ()) = .ok s2) ∧
    (moistureMap 1500 1500 9999 = 100 ∨ moistureMap 1500 1500 9999 = 0) :=
  have hc := c7_no_startup_validation 1500 1500 (by decide) initState
    false true .ok200 (.error ())
  ⟨by decide, hc.1, hc.2 9999⟩

/-- C8: when the five-sample sensor read raises, `read_soil_moisture`
returns the previous successful reading (`last_moisture`) and leaves the
state unchanged; the `except` handler makes the value total, so the cycle
does not crash on a sensor glitch. -/
theorem c8_read_failure_returns_last_known_good (s : State) :
    read_soil_moisture s (.error ()) = (s, s.last_moisture) := rfl

/-- C9: in every reachable state of the program, the server-availability
flag implies the WiFi flag; equivalently, `server_available` can only be
true while `wifi_connected` is true, and every operation writing either
flag preserves the implication. -/
theorem c9_server_available_implies_wifi {s : State} (h : Reachable s) :
    s.server_available = true → s.wifi_connected = true := by
  induction h with
  | boot a c p r s0 hb => exact main_startup_inv _ _ a c p r s0 hb
  | sensor r hr ih =>
      intro hsa
      rcases sensor_reading_task_flags _ r with ⟨h1, h2⟩
      rw [h1]
      rw [h2] at hsa
      exact ih hsa
  | sync o r hr ih =>
      intro hsa
      rcases sync_relay_state_flags _ o r with ⟨h1, h2⟩
      rw [h1]
      rw [h2] at hsa
      exact ih hsa
  | conn w a c p hr ih => exact check_connections_inv _ w a c p ih

/-- C9 witness: the boot outcome with a first-try WLAN association and a
200 health probe is reachable, has the server flag set, and the theorem
yields its WiFi flag. -/
theorem c9_server_available_implies_wifi_witness :
    sBoot.server_available = true ∧ sBoot.wifi_connected = true :=
  ⟨rfl, c9_server_available_implies_wifi
    (Reachable.boot false true .ok200 (.error ()) sBoot rfl) rfl⟩

/-- C10: the initial last-known-good value is 0 (`last_moisture = 0` at
module level), so a sensor read failure occurring before any successful
reading returns 0 — a startup-time glitch is reported as 0 percent
moisture. -/
theorem c10_startup_glitch_reports_zero :
    initState.last_moisture = 0 ∧
    (read_soil_moisture initState (.error ())).2 = 0 := by decide

end FarmerEsp
